import Mathlib

/-!
Shallow embedding of the jersey-shop sales manager's domain operations.

The relational store (customers, couriers, transactions, shop settings) is
modelled as lists of records; every handler becomes a pure function that
threads the store explicitly and returns `Except Err` for the paths on which
the TypeScript handler throws.  Monetary columns (`numeric(10,2)`) are
modelled as exact rationals, ids and audit timestamps as naturals, and the
`transaction_date` timestamp as a calendar date (time of day plays no role in
any property considered here).  SQL `ILIKE '%term%'` search is modelled as
case-insensitive substring matching; embedded SQL wildcard characters inside
a user-supplied term are not modelled.
-/

/-- Payment methods, from the `payment_method` pg enum. -/
inductive PaymentMethod where
  | cod
  | cash
  | transfer
  | shopee
deriving DecidableEq, Repr

/-- Order lifecycle states, from the `order_status` pg enum. -/
inductive OrderStatus where
  | pending
  | in_process
  | completed
  | returned
deriving DecidableEq, Repr

/-- Calendar date; stands for the date part of a `timestamp` column. -/
structure SDate where
  year : Nat
  month : Nat
  day : Nat
deriving DecidableEq, Repr

/-- Date comparison, mirroring `<=` on SQL timestamps. -/
def SDate.le (a b : SDate) : Bool :=
  decide (a.year < b.year) ||
    (a.year == b.year &&
      (decide (a.month < b.month) ||
        (a.month == b.month && decide (a.day ≤ b.day))))

/-- Row of the `customers` table. -/
structure Customer where
  id : Nat
  name : String
  phone : String
  address : String
  city : String
  province : String
  notes : Option String
  created_at : Nat
  updated_at : Nat
deriving DecidableEq, Repr

/-- Row of the `couriers` table. -/
structure Courier where
  id : Nat
  name : String
  code : String
  notes : Option String
  created_at : Nat
  updated_at : Nat
deriving DecidableEq, Repr

/-- Row of the `transactions` table.  `price` and `total_payment` are the
exact decimal values; `courier_id` is the nullable foreign key. -/
structure Transaction where
  id : Nat
  customer_id : Nat
  jersey_name : String
  jersey_size : String
  price : ℚ
  quantity : Nat
  total_payment : ℚ
  payment_method : PaymentMethod
  courier_id : Option Nat
  order_status : OrderStatus
  transaction_date : SDate
  notes : Option String
  created_at : Nat
  updated_at : Nat
deriving DecidableEq, Repr

/-- Singleton `shop_settings` row (the fields a receipt reads). -/
structure ShopSettings where
  shop_name : String
  shop_address : String
  shop_phone : String
  receipt_template : String
deriving DecidableEq, Repr

/-- The relational store. -/
structure Store where
  customers : List Customer
  couriers : List Courier
  transactions : List Transaction
deriving DecidableEq, Repr

/-- Error taxonomy of the handlers: `notFound` for a missing referenced
entity, `conflict` for a dependent-record guard, `fkViolation` for a
store-level foreign-key rejection (propagated as an opaque error by the
handlers), `internalErr` for the re-fetch failure path. -/
inductive Err where
  | notFound (entity : String) (id : Nat)
  | conflict (msg : String)
  | fkViolation (col : String)
  | internalErr (msg : String)
deriving DecidableEq, Repr

/-- Transaction joined with its customer (inner join) and courier (left
join), as the order handlers return it. -/
structure TransactionWithRelations where
  id : Nat
  customer : Customer
  courier : Option Courier
  jersey_name : String
  jersey_size : String
  price : ℚ
  quantity : Nat
  total_payment : ℚ
  payment_method : PaymentMethod
  order_status : OrderStatus
  transaction_date : SDate
  notes : Option String
  created_at : Nat
  updated_at : Nat
deriving DecidableEq, Repr

/-- Input of `createTransaction` (`createTransactionInputSchema`); note the
schema carries no `order_status` field. -/
structure CreateTransactionInput where
  customer_id : Nat
  jersey_name : String
  jersey_size : String
  price : ℚ
  quantity : Nat
  total_payment : ℚ
  payment_method : PaymentMethod
  courier_id : Option Nat
  transaction_date : SDate
  notes : Option String
deriving DecidableEq, Repr

/-- Input of `updateTransaction` (`updateTransactionInputSchema`); an outer
`none` means the field is absent from the patch, and for the nullable
columns the inner option distinguishes clearing (`some none`) from setting. -/
structure UpdateTransactionInput where
  id : Nat
  customer_id : Option Nat
  jersey_name : Option String
  jersey_size : Option String
  price : Option ℚ
  quantity : Option Nat
  total_payment : Option ℚ
  payment_method : Option PaymentMethod
  courier_id : Option (Option Nat)
  order_status : Option OrderStatus
  transaction_date : Option SDate
  notes : Option (Option String)
deriving DecidableEq, Repr

/-- Pagination envelope: 1-based `page`, `limit` a positive count or the
sentinel `-1` meaning unbounded, and an optional search term. -/
structure PaginationInput where
  page : Nat
  limit : Int
  search : Option String
deriving DecidableEq, Repr

/-- Report filter envelope (`reportFilterSchema`); every field optional. -/
structure ReportFilter where
  start_date : Option SDate
  end_date : Option SDate
  customer_id : Option Nat
  courier_id : Option Nat
  jersey_name : Option String
  order_status : Option OrderStatus
  payment_method : Option PaymentMethod
deriving DecidableEq, Repr

/-- Result shape of `getReportStats`. -/
structure ReportStats where
  total_sales : ℚ
  total_orders : Nat
  total_quantity : Nat
  average_order_value : ℚ
deriving DecidableEq, Repr

/-- Result shape of `getOrderStatusCounts`. -/
structure StatusCounts where
  total : Nat
  pending : Nat
  in_process : Nat
  completed : Nat
  returned : Nat
deriving DecidableEq, Repr

/-- Result row of `getSalesReportByPeriod`. -/
structure SalesRow where
  period : String
  total_sales : ℚ
  total_orders : Nat
  total_quantity : Nat
deriving DecidableEq, Repr

/-- Grouping period of `getSalesReportByPeriod`. -/
inductive Period where
  | daily
  | weekly
  | monthly
deriving DecidableEq, Repr

/-- Contiguous-subsequence test on char lists. -/
def containsSeq : List Char → List Char → Bool
  | needle, [] => needle.isEmpty
  | needle, c :: rest => List.isPrefixOf needle (c :: rest) || containsSeq needle rest

/-- Case-insensitive substring test, modelling `ILIKE '%needle%'`. -/
def containsCI (needle hay : String) : Bool :=
  containsSeq needle.toLower.toList hay.toLower.toList

/-- Left-pads a numeral to two digits, as `TO_CHAR` format `MM`/`DD` does. -/
def pad2 (n : Nat) : String :=
  if n < 10 then ("0") ++ toString n else toString n

/-- Left-pads a numeral to four digits, as `TO_CHAR` format `YYYY` does. -/
def pad4 (n : Nat) : String :=
  if n < 10 then ("000") ++ toString n
  else if n < 100 then ("00") ++ toString n
  else if n < 1000 then ("0") ++ toString n
  else toString n

/-- Left-pads a numeral with zeroes to six digits, modelling
`id.toString().padStart(6, '0')`. -/
def pad6 (n : Nat) : String :=
  let s := toString n
  if s.length ≥ 6 then s else String.mk (List.replicate (6 - s.length) '0') ++ s

/-- Inserts a dot after every three characters of a reversed digit list;
helper for id-ID thousands grouping. -/
def groupChunks : List Char → List Char
  | a :: b :: c :: d :: rest => a :: b :: c :: '.' :: groupChunks (d :: rest)
  | l => l

/-- Thousands-grouping of a natural with `.` separators, as
`toLocaleString('id-ID')` renders integers. -/
def groupThousands (n : Nat) : String :=
  String.mk ((groupChunks (toString n).toList.reverse).reverse)

/-- Modelled rendering of `Number.prototype.toLocaleString('id-ID')` for the
nonnegative `numeric(10,2)` values the store holds: grouped integer part and,
when a fractional part exists, a comma and two digits. -/
def formatMoneyID (q : ℚ) : String :=
  let ip := q.num.natAbs / q.den
  let fr := q.num.natAbs * 100 / q.den % 100
  if fr == 0 then groupThousands ip else groupThousands ip ++ (",") ++ pad2 fr

/-- Modelled `toLocaleDateString('id-ID')` with 2-digit day and month. -/
def formatDateID (d : SDate) : String :=
  pad2 d.day ++ ("/") ++ pad2 d.month ++ ("/") ++ toString d.year

/-- Modelled `toLocaleTimeString('id-ID')` of a date-valued timestamp: the
embedding keeps no time of day, so the rendered clock reads midnight. -/
def formatTimeID (_d : SDate) : String :=
  ("00.00")

/-- Gregorian leap-year test. -/
def isLeap (y : Nat) : Bool :=
  y % 4 == 0 && (y % 100 != 0 || y % 400 == 0)

/-- Cumulative day count before the given 1-based month. -/
def daysBeforeMonth (leap : Bool) (m : Nat) : Nat :=
  [0, 31, 59, 90, 120, 151, 181, 212, 243, 273, 304, 334].getD (m - 1) 0 +
    (if leap && decide (2 < m) then 1 else 0)

/-- Ordinal day of the year (1-based). -/
def dayOfYear (d : SDate) : Nat :=
  daysBeforeMonth (isLeap d.year) d.month + d.day

/-- Day of week by Zeller's congruence, ISO numbering (1 = Monday). -/
def isoDow (d : SDate) : Nat :=
  let y := if d.month ≤ 2 then d.year - 1 else d.year
  let m := if d.month ≤ 2 then d.month + 12 else d.month
  let k := y % 100
  let j := y / 100
  let h := (d.day + 13 * (m + 1) / 5 + k + k / 4 + j / 4 + 5 * j) % 7
  (h + 5) % 7 + 1

/-- Number of ISO weeks in a year (53 when Jan 1 falls on Thursday, or on
Wednesday of a leap year). -/
def isoWeeksInYear (y : Nat) : Nat :=
  let jan1 := isoDow ⟨y, 1, 1⟩
  if jan1 = 4 ∨ (isLeap y && jan1 == 3) then 53 else 52

/-- Modelled from the spec: the ISO-8601 week label `IYYY-"W"IW` the spec
names for the weekly report key (the source instead uses `TO_CHAR` format
`YYYY-"W"WW`).  Week 1 is the week containing January 4; weeks run Monday
to Sunday, and early-January or late-December days may belong to the
adjacent ISO year. -/
def isoWeekLabel (d : SDate) : String :=
  let dow := isoDow d
  let doy := dayOfYear d
  let w := (doy + 10 - dow) / 7
  if w < 1 then pad4 (d.year - 1) ++ ("-W") ++ pad2 (isoWeeksInYear (d.year - 1))
  else if isoWeeksInYear d.year < w then pad4 (d.year + 1) ++ ("-W01")
  else pad4 d.year ++ ("-W") ++ pad2 w

/-- Period key of `getSalesReportByPeriod`: `TO_CHAR(transaction_date, f)`
with `f` one of `YYYY-MM-DD`, `YYYY-"W"WW`, `YYYY-MM`.  Postgres `WW` is the
week of the year anchored at January 1: `(dayOfYear - 1) / 7 + 1`. -/
def toCharKey (p : Period) (d : SDate) : String :=
  match p with
  | .daily => pad4 d.year ++ ("-") ++ pad2 d.month ++ ("-") ++ pad2 d.day
  | .weekly => pad4 d.year ++ ("-W") ++ pad2 ((dayOfYear d - 1) / 7 + 1)
  | .monthly => pad4 d.year ++ ("-") ++ pad2 d.month

/-- Lexicographic comparison of char lists by code point; the order `ORDER
BY` uses on the ASCII period keys. -/
def charListLe : List Char → List Char → Bool
  | [], _ => true
  | _ :: _, [] => false
  | a :: as, b :: bs =>
    if a.toNat < b.toNat then true
    else if b.toNat < a.toNat then false
    else charListLe as bs

/-- String comparison used for ascending `ORDER BY` on period keys. -/
def strLeB (a b : String) : Bool :=
  charListLe a.toList b.toList

/-- Insertion step of a stable insertion sort over a boolean order. -/
def insertLeB (le : α → α → Bool) (x : α) : List α → List α
  | [] => [x]
  | y :: ys => if le x y then x :: y :: ys else y :: insertLeB le x ys

/-- Stable insertion sort over a boolean order; models SQL `ORDER BY`. -/
def sortLeB (le : α → α → Bool) : List α → List α
  | [] => []
  | x :: xs => insertLeB le x (sortLeB le xs)

/-- Descending sort by a natural-valued key; models
`ORDER BY created_at DESC`. -/
def sortDescBy (key : α → Nat) (l : List α) : List α :=
  sortLeB (fun a b => decide (key b ≤ key a)) l

/-- Page window of a result list: with the `-1` sentinel the list is
returned whole, otherwise `LIMIT limit OFFSET (page-1)*limit` applies. -/
def paginate (p : PaginationInput) (l : List α) : List α :=
  if p.limit == -1 then l
  else (l.drop ((p.page - 1) * p.limit.toNat)).take p.limit.toNat

/-- Foreign-key-checked insert into the `transactions` table; the schema
declares `customer_id` referencing `customers.id` and the nullable
`courier_id` referencing `couriers.id`, so the store rejects a dangling
reference with a constraint violation. -/
def insertTransaction (s : Store) (t : Transaction) : Except Err Store :=
  if (s.customers.find? (fun c => c.id == t.customer_id)).isNone then
    .error (.fkViolation ("transactions.customer_id"))
  else
    match t.courier_id with
    | some cid =>
      if (s.couriers.find? (fun c => c.id == cid)).isNone then
        .error (.fkViolation ("transactions.courier_id"))
      else .ok { s with transactions := s.transactions ++ [t] }
    | none => .ok { s with transactions := s.transactions ++ [t] }

/-- Handler `createTransaction` (transactions handler): verifies the customer
exists, verifies the courier exists when `courier_id` is truthy (a JS truthy
test, so `0` and `null` both skip the check), then inserts with
`order_status: 'pending'`.  `newId` models the serial key, `now` the
`defaultNow()` audit timestamps.  On a thrown error the store is unchanged. -/
def createTransaction (s : Store) (input : CreateTransactionInput)
    (newId now : Nat) : Except Err Transaction × Store :=
  match s.customers.find? (fun c => c.id == input.customer_id) with
  | none => (.error (.notFound ("Customer") input.customer_id), s)
  | some _ =>
    let row : Transaction :=
      { id := newId
        customer_id := input.customer_id
        jersey_name := input.jersey_name
        jersey_size := input.jersey_size
        price := input.price
        quantity := input.quantity
        total_payment := input.total_payment
        payment_method := input.payment_method
        courier_id := input.courier_id
        order_status := .pending
        transaction_date := input.transaction_date
        notes := input.notes
        created_at := now
        updated_at := now }
    let proceed : Except Err Transaction × Store :=
      match insertTransaction s row with
      | .error e => (.error e, s)
      | .ok s2 => (.ok row, s2)
    match input.courier_id with
    | some cid =>
      if cid != 0 then
        if (s.couriers.find? (fun c => c.id == cid)).isNone then
          (.error (.notFound ("Courier") cid), s)
        else proceed
      else proceed
    | none => proceed

/-- Field-wise merge of an update patch into an existing transaction row,
mirroring the `updateValues` object: only fields present in the input
change, and `updated_at` is refreshed. -/
def mergeTx (t : Transaction) (input : UpdateTransactionInput) (now : Nat) :
    Transaction :=
  { t with
    customer_id := input.customer_id.getD t.customer_id
    jersey_name := input.jersey_name.getD t.jersey_name
    jersey_size := input.jersey_size.getD t.jersey_size
    price := input.price.getD t.price
    quantity := input.quantity.getD t.quantity
    total_payment := input.total_payment.getD t.total_payment
    payment_method := input.payment_method.getD t.payment_method
    courier_id := input.courier_id.getD t.courier_id
    order_status := input.order_status.getD t.order_status
    transaction_date := input.transaction_date.getD t.transaction_date
    notes := input.notes.getD t.notes
    updated_at := now }

/-- Handler `updateTransaction` (transactions handler): verifies the target
transaction exists, verifies the customer exists when `customer_id` is
present, verifies the courier exists when `courier_id` is present and not
null (an explicit `!== undefined && !== null` test, so `courier_id = 0` is
checked and fails), then applies the merge. -/
def updateTransaction (s : Store) (input : UpdateTransactionInput)
    (now : Nat) : Except Err Transaction × Store :=
  match s.transactions.find? (fun t => t.id == input.id) with
  | none => (.error (.notFound ("Transaction") input.id), s)
  | some t0 =>
    let applyUpdate : Except Err Transaction × Store :=
      (.ok (mergeTx t0 input now),
        { s with
          transactions := s.transactions.map
            (fun t => if t.id == input.id then mergeTx t input now else t) })
    let courierStep : Except Err Transaction × Store :=
      match input.courier_id with
      | some (some cid) =>
        if (s.couriers.find? (fun c => c.id == cid)).isNone then
          (.error (.notFound ("Courier") cid), s)
        else applyUpdate
      | _ => applyUpdate
    match input.customer_id with
    | some cid =>
      if (s.customers.find? (fun c => c.id == cid)).isNone then
        (.error (.notFound ("Customer") cid), s)
      else courierStep
    | none => courierStep

/-- Joins a transaction row with its customer (inner join: the row is
dropped when the customer is missing) and courier (left join on the primary
key; the handler additionally maps a falsy joined `courier.id` to null). -/
def joinRelations (s : Store) (t : Transaction) :
    Option TransactionWithRelations :=
  match s.customers.find? (fun c => c.id == t.customer_id) with
  | none => none
  | some cu =>
    let co0 : Option Courier :=
      match t.courier_id with
      | some cid => s.couriers.find? (fun c => c.id == cid)
      | none => none
    let co := co0.filter (fun c => c.id != 0)
    some
      { id := t.id
        customer := cu
        courier := co
        jersey_name := t.jersey_name
        jersey_size := t.jersey_size
        price := t.price
        quantity := t.quantity
        total_payment := t.total_payment
        payment_method := t.payment_method
        order_status := t.order_status
        transaction_date := t.transaction_date
        notes := t.notes
        created_at := t.created_at
        updated_at := t.updated_at }

/-- Handler `getOrderById` (orders handler): single row with relations, or
`null` when absent. -/
def getOrderById (s : Store) (id : Nat) : Option TransactionWithRelations :=
  (s.transactions.find? (fun t => t.id == id)).bind (joinRelations s)

/-- Handler `updateOrderStatus` (orders handler): sets `order_status` and
`updated_at` on the matching row with no precondition on the current status,
throws `NotFound` when the id matches nothing, then re-fetches the row with
relations. -/
def updateOrderStatus (s : Store) (id : Nat) (st : OrderStatus) (now : Nat) :
    Except Err TransactionWithRelations × Store :=
  if (s.transactions.filter (fun t => t.id == id)).isEmpty then
    (.error (.notFound ("Order") id), s)
  else
    let s2 : Store :=
      { s with
        transactions := s.transactions.map
          (fun t =>
            if t.id == id then { t with order_status := st, updated_at := now }
            else t) }
    match getOrderById s2 id with
    | none => (.error (.internalErr ("Failed to retrieve updated order")), s2)
    | some tw => (.ok tw, s2)

/-- Handler `deleteCourier` (couriers handler): `NotFound` when the id does
not resolve, `Conflict` when any transaction still references it, and only
otherwise the delete. -/
def deleteCourier (s : Store) (id : Nat) : Except Err Unit × Store :=
  match s.couriers.find? (fun c => c.id == id) with
  | none => (.error (.notFound ("Courier") id), s)
  | some _ =>
    if 0 < (s.transactions.filter (fun t => t.courier_id == some id)).length then
      (.error (.conflict ("Cannot delete courier with associated transactions")), s)
    else
      (.ok (), { s with couriers := s.couriers.filter (fun c => c.id != id) })

/-- Modelled from the spec: handler `deleteCustomer` exists in src only as a
placeholder stub, so its body is taken from the spec's words (and the test
suite's expectations): `delete(id)` fails with `NotFound` if missing, fails
with `Conflict` (has-dependents) if any transaction still references this
id, and only then performs the delete. -/
def deleteCustomer (s : Store) (id : Nat) : Except Err Unit × Store :=
  match s.customers.find? (fun c => c.id == id) with
  | none => (.error (.notFound ("Customer") id), s)
  | some _ =>
    if 0 < (s.transactions.filter (fun t => t.customer_id == id)).length then
      (.error (.conflict ("Cannot delete customer with existing transactions")), s)
    else
      (.ok (), { s with customers := s.customers.filter (fun c => c.id != id) })

/-- Number of transactions in a list with the given status. -/
def statusCount (l : List Transaction) (st : OrderStatus) : Nat :=
  (l.filter (fun t => t.order_status == st)).length

/-- Result of `GROUP BY order_status` with `count(*)`: one group per status
that has at least one row (SQL synthesizes no empty groups). -/
def statusGroups (l : List Transaction) : List (OrderStatus × Nat) :=
  [OrderStatus.pending, OrderStatus.in_process, OrderStatus.completed,
      OrderStatus.returned].filterMap
    (fun st => if statusCount l st = 0 then none else some (st, statusCount l st))

/-- Handler `getOrderStatusCounts` (orders handler): initializes all five
counters to zero and folds the group-by result into them, adding every
group's count into `total`. -/
def getOrderStatusCounts (s : Store) : StatusCounts :=
  (statusGroups s.transactions).foldl
    (fun acc g =>
      let acc2 := { acc with total := acc.total + g.2 }
      match g.1 with
      | .pending => { acc2 with pending := g.2 }
      | .in_process => { acc2 with in_process := g.2 }
      | .completed => { acc2 with completed := g.2 }
      | .returned => { acc2 with returned := g.2 })
    ⟨0, 0, 0, 0, 0⟩

/-- Report-filter predicate: every present filter field contributes an ANDed
condition.  The handler pushes each condition under a JS truthy test, so a
zero `customer_id`/`courier_id` or an empty `jersey_name` adds no
condition. -/
def matchesFilter (f : ReportFilter) (t : Transaction) : Bool :=
  (match f.start_date with
    | some d => SDate.le d t.transaction_date
    | none => true) &&
  (match f.end_date with
    | some d => SDate.le t.transaction_date d
    | none => true) &&
  (match f.customer_id with
    | some n => if n != 0 then t.customer_id == n else true
    | none => true) &&
  (match f.courier_id with
    | some n => if n != 0 then t.courier_id == some n else true
    | none => true) &&
  (match f.jersey_name with
    | some jn => if jn != "" then t.jersey_name == jn else true
    | none => true) &&
  (match f.order_status with
    | some st => t.order_status == st
    | none => true) &&
  (match f.payment_method with
    | some pm => t.payment_method == pm
    | none => true)

/-- Handler `getReportStats` (reports implementation): aggregates
`sum(total_payment)`, `count(*)`, `sum(quantity)` over the filtered rows
(null sums over an empty selection coalesce to 0) and divides for the
average only when at least one order matched. -/
def getReportStats (s : Store) (f : ReportFilter) : ReportStats :=
  let m := s.transactions.filter (matchesFilter f)
  let totalSales : ℚ := (m.map (fun t => t.total_payment)).sum
  let totalOrders := m.length
  let totalQuantity := (m.map (fun t => t.quantity)).sum
  { total_sales := totalSales
    total_orders := totalOrders
    total_quantity := totalQuantity
    average_order_value :=
      if 0 < totalOrders then totalSales / totalOrders else 0 }

/-- Search predicate of the courier list: `ILIKE` on name or code, OR-ed,
only when the search term is truthy (JS: non-empty). -/
def courierSearchPred (p : PaginationInput) (c : Courier) : Bool :=
  match p.search with
  | some q => if q != "" then containsCI q c.name || containsCI q c.code else true
  | none => true

/-- Handler `getCouriers` (couriers handler): branches on the presence of a
truthy search term; both branches order newest-first and apply the page
window unless `limit = -1`; the count query repeats the same condition. -/
def getCouriers (s : Store) (p : PaginationInput) : List Courier × Nat :=
  match p.search with
  | some q =>
    if q != "" then
      let matched := s.couriers.filter
        (fun c => containsCI q c.name || containsCI q c.code)
      (paginate p (sortDescBy (fun c => c.created_at) matched), matched.length)
    else
      (paginate p (sortDescBy (fun c => c.created_at) s.couriers),
        s.couriers.length)
  | none =>
    (paginate p (sortDescBy (fun c => c.created_at) s.couriers),
      s.couriers.length)

/-- Search predicate of the customer list, from the spec: name, phone, city
or province, case-insensitive substring, OR-combined. -/
def customerSearchPred (p : PaginationInput) (c : Customer) : Bool :=
  match p.search with
  | some q =>
    if q != "" then
      containsCI q c.name || containsCI q c.phone || containsCI q c.city ||
        containsCI q c.province
    else true
  | none => true

/-- Modelled from the spec: handler `getCustomers` exists in src only as a
placeholder stub, so its body is taken from the spec's words (§4.1): `list`
returns the matching rows and their count, search matches name, phone, city
or province case-insensitively with substring semantics OR-combined, absent
search returns all rows, ordering is newest-first, and `limit = -1` means
unbounded. -/
def getCustomers (s : Store) (p : PaginationInput) : List Customer × Nat :=
  let matched := s.customers.filter (customerSearchPred p)
  (paginate p (sortDescBy (fun c => c.created_at) matched), matched.length)

/-- Row predicate of `getOrdersByStatus`: the status condition plus, when
the trimmed search term is truthy, `ILIKE` on customer name, jersey name or
the id rendered as text. -/
def orderRowPred (status : OrderStatus) (p : PaginationInput)
    (r : TransactionWithRelations) : Bool :=
  r.order_status == status &&
    (match p.search with
      | some q =>
        if q.trim != "" then
          containsCI q.trim r.customer.name || containsCI q.trim r.jersey_name ||
            containsCI q.trim (toString r.id)
        else true
      | none => true)

/-- Rows of `getOrdersByStatus` before ordering and the page window: the
join (inner to customers, left to couriers) followed by the shared `WHERE`
condition; the count query repeats the same join and condition, so the
total is this list's length. -/
def ordersMatched (s : Store) (status : OrderStatus) (p : PaginationInput) :
    List TransactionWithRelations :=
  (s.transactions.filterMap (joinRelations s)).filter (orderRowPred status p)

/-- Handler `getOrdersByStatus` (orders handler): matching rows ordered
newest-first with the page window (`limit = -1` returns all), and the
mirrored count as `total`. -/
def getOrdersByStatus (s : Store) (status : OrderStatus)
    (p : PaginationInput) : List TransactionWithRelations × Nat :=
  (paginate p (sortDescBy (fun r => r.created_at) (ordersMatched s status p)),
    (ordersMatched s status p).length)

/-- Transactions inside the date window of `getSalesReportByPeriod` (both
bounds inclusive). -/
def periodMatched (s : Store) (a b : SDate) : List Transaction :=
  s.transactions.filter
    (fun t => SDate.le a t.transaction_date && SDate.le t.transaction_date b)

/-- Aggregate row of one period group: sums and count over the matched
transactions whose `TO_CHAR` key equals the group key. -/
def periodRow (p : Period) (m : List Transaction) (k : String) : SalesRow :=
  let g := m.filter (fun t => toCharKey p t.transaction_date == k)
  { period := k
    total_sales := (g.map (fun t => t.total_payment)).sum
    total_orders := g.length
    total_quantity := (g.map (fun t => t.quantity)).sum }

/-- Distinct period keys, as `GROUP BY` produces them (one group per
distinct key). -/
def dedupKeys : List String → List String
  | [] => []
  | k :: rest =>
    let d := dedupKeys rest
    if k ∈ d then d else k :: d

/-- Handler `getSalesReportByPeriod` (reports implementation): date-range
filter, `GROUP BY` the `TO_CHAR` period key (so only keys with at least one
row appear), aggregates per group, `ORDER BY` the key ascending. -/
def getSalesReportByPeriod (s : Store) (p : Period) (a b : SDate) :
    List SalesRow :=
  let m := periodMatched s a b
  (sortLeB strLeB
      (dedupKeys (m.map (fun t => toCharKey p t.transaction_date)))).map
    (periodRow p m)

/-- Enum literal of a payment method, as stored and printed. -/
def pmText : PaymentMethod → String
  | .cod => ("COD")
  | .cash => ("Cash")
  | .transfer => ("Transfer")
  | .shopee => ("Shopee")

/-- Upper-cased order status, as `order_status.toUpperCase()` renders it. -/
def statusUpper : OrderStatus → String
  | .pending => ("PENDING")
  | .in_process => ("IN_PROCESS")
  | .completed => ("COMPLETED")
  | .returned => ("RETURNED")

/-- Price rendering of `formatReceiptFor58mm`:
`Rp ` plus the id-ID-grouped amount. -/
def formatPriceRp (q : ℚ) : String :=
  ("Rp ") ++ formatMoneyID q

/-- Courier slot of the 58mm receipt template: the ternary
`order.courier ? Kurir: name (code) : 'Kurir: -'`. -/
def courierSlot58 : Option Courier → String
  | some c => ("Kurir: ") ++ c.name ++ (" (") ++ c.code ++ (")")
  | none => ("Kurir: -")

/-- Notes slot of the 58mm receipt template: the ternary
`order.notes ? \nCatatan:\n... : ''` (JS truthiness: empty notes render
nothing). -/
def notesSlot58 : Option String → String
  | some n => if n != "" then ("\nCatatan:\n") ++ n else ""
  | none => ""

/-- Template slots of `formatReceiptFor58mm` (orders handler), one element
per line of the template literal; the receipt is their newline join. -/
def formatReceiptLines58mm (o : TransactionWithRelations)
    (st : ShopSettings) : List String :=
  let rule := ("--------------------------------")
  [ st.shop_name, st.shop_address, st.shop_phone, "",
    rule, ("STRUK PEMBELIAN"), rule, "",
    ("No. Order: ") ++ toString o.id,
    ("Tanggal: ") ++ formatDateID o.transaction_date, "",
    ("Customer:"), o.customer.name, o.customer.phone, o.customer.address,
    o.customer.city ++ (", ") ++ o.customer.province, "",
    rule, ("DETAIL ORDER"), rule, "",
    ("Jersey: ") ++ o.jersey_name,
    ("Size: ") ++ o.jersey_size,
    ("Harga: ") ++ formatPriceRp o.price,
    ("Qty: ") ++ toString o.quantity,
    ("Total: ") ++ formatPriceRp o.total_payment, "",
    rule,
    ("Pembayaran: ") ++ pmText o.payment_method,
    courierSlot58 o.courier,
    ("Status: ") ++ statusUpper o.order_status, "",
    notesSlot58 o.notes, "",
    rule, ("Terima kasih atas pembelian Anda!"), rule ]

/-- Function `formatReceiptFor58mm` (orders handler): the template joined
with newlines and trimmed, as the backtick literal plus `.trim()` does. -/
def formatReceiptFor58mm (o : TransactionWithRelations)
    (st : ShopSettings) : String :=
  (String.intercalate ("\n") (formatReceiptLines58mm o st)).trim

/-- Courier slot of the transactions-handler receipt template: the ternary
`transaction.courier ? Courier: name (code) : ''` — an empty slot that
leaves a blank line in the joined text. -/
def courierSlotTx : Option Courier → String
  | some c => ("Courier: ") ++ c.name ++ (" (") ++ c.code ++ (")")
  | none => ""

/-- Notes slot of the transactions-handler receipt template. -/
def notesSlotTx : Option String → String
  | some n => if n != "" then ("\nCatatan: ") ++ n else ""
  | none => ""

/-- Template slots of `generateTransactionReceipt` (transactions handler),
one element per line of the template literal. -/
def txReceiptLines (t : TransactionWithRelations) (st : ShopSettings) :
    List String :=
  let rule := ("================================")
  let dash := ("--------------------------------")
  [ st.shop_name, st.shop_address, st.shop_phone,
    rule, ("STRUK PEMBELIAN"), rule,
    ("No: ") ++ pad6 t.id,
    ("Tgl: ") ++ formatDateID t.transaction_date ++ (" ") ++
      formatTimeID t.transaction_date, "",
    ("Customer: ") ++ t.customer.name,
    ("Phone: ") ++ t.customer.phone,
    ("Address: ") ++ t.customer.address,
    t.customer.city ++ (", ") ++ t.customer.province,
    dash,
    ("Jersey: ") ++ t.jersey_name,
    ("Size: ") ++ t.jersey_size,
    ("Qty: ") ++ toString t.quantity ++ (" x ") ++ formatMoneyID t.price,
    ("Total Item: ") ++ formatMoneyID (t.price * t.quantity), "",
    ("TOTAL BAYAR: ") ++ formatMoneyID t.total_payment,
    ("Payment: ") ++ pmText t.payment_method,
    courierSlotTx t.courier,
    ("Status: ") ++ statusUpper t.order_status,
    notesSlotTx t.notes,
    rule, ("Terima kasih atas kepercayaan Anda!"),
    (if st.receipt_template != "" then st.receipt_template else ""),
    rule ]

/-- Handler `getTransactionById` (transactions handler); the source left
joins the customer and asserts it non-null, which the store's foreign key
guarantees, so the join is modelled as inner. -/
def getTransactionById (s : Store) (id : Nat) :
    Option TransactionWithRelations :=
  (s.transactions.find? (fun t => t.id == id)).bind (joinRelations s)

/-- Handler `generateTransactionReceipt` (transactions handler): `NotFound`
when the transaction is absent, a configuration error when no settings row
exists, else the rendered template. -/
def generateTransactionReceipt (s : Store) (settings : Option ShopSettings)
    (id : Nat) : Except Err String :=
  match getTransactionById s id with
  | none => .error (.notFound ("Transaction") id)
  | some t =>
    match settings with
    | none => .error (.conflict ("Shop settings not configured"))
    | some st => .ok ((String.intercalate ("\n") (txReceiptLines t st)).trim)

/-- Handler `generateOrderReceipt` (orders handler): `NotFound` when the
order is absent, an error when no settings row exists, else the 58mm
rendering. -/
def generateOrderReceipt (s : Store) (settings : Option ShopSettings)
    (id : Nat) : Except Err String :=
  match getOrderById s id with
  | none => .error (.notFound ("Order") id)
  | some o =>
    match settings with
    | none => .error (.conflict ("Shop settings not found"))
    | some st => .ok (formatReceiptFor58mm o st)

/-- Referential well-formedness the store's foreign keys enforce: every
transaction's `customer_id` resolves, and its `courier_id` resolves when
non-null. -/
def storeWF (s : Store) : Prop :=
  (∀ t ∈ s.transactions, ∃ c ∈ s.customers, c.id = t.customer_id) ∧
    (∀ t ∈ s.transactions, ∀ cid, t.courier_id = some cid →
      ∃ c ∈ s.couriers, c.id = cid)

instance (s : Store) : Decidable (storeWF s) := by
  unfold storeWF
  exact inferInstance

/-- Sample customer fixture. -/
def cJohn : Customer :=
  { id := 1, name := "John Doe", phone := "0812", address := "Jl. Merdeka 1"
    city := "Jakarta", province := "DKI Jakarta", notes := none
    created_at := 10, updated_at := 10 }

/-- Sample courier fixture. -/
def kJNE : Courier :=
  { id := 2, name := "JNE", code := "JNE", notes := none
    created_at := 11, updated_at := 11 }

/-- Sample completed transaction referencing both fixtures. -/
def txBase : Transaction :=
  { id := 5, customer_id := 1, jersey_name := "Garuda Home"
    jersey_size := "L", price := 150000, quantity := 2
    total_payment := 300000, payment_method := .transfer
    courier_id := some 2, order_status := .completed
    transaction_date := ⟨2024, 1, 15⟩, notes := none
    created_at := 20, updated_at := 20 }

/-- Sample transaction with no courier attached. -/
def txNoCourier : Transaction :=
  { id := 6, customer_id := 1, jersey_name := "Garuda Away"
    jersey_size := "M", price := 120000, quantity := 1
    total_payment := 120000, payment_method := .cash
    courier_id := none, order_status := .pending
    transaction_date := ⟨2024, 2, 3⟩, notes := none
    created_at := 21, updated_at := 21 }

/-- Sample well-formed store with one customer, one courier, two
transactions. -/
def exStore : Store :=
  { customers := [cJohn], couriers := [kJNE]
    transactions := [txBase, txNoCourier] }

/-- Store with a customer but no couriers and no transactions. -/
def exStoreEmptyTx : Store :=
  { customers := [cJohn], couriers := [], transactions := [] }

/-- Valid creation input referencing the sample customer and courier. -/
def exInput : CreateTransactionInput :=
  { customer_id := 1, jersey_name := "Garuda Third", jersey_size := "XL"
    price := 175000, quantity := 1, total_payment := 175000
    payment_method := .cod, courier_id := some 2
    transaction_date := ⟨2024, 3, 1⟩, notes := none }

/-- Creation input carrying the falsy courier id `0`. -/
def exInputZeroCourier : CreateTransactionInput :=
  { exInput with courier_id := some 0 }

/-- Update patch setting only `courier_id`, to the non-null value `0`. -/
def exUpdZeroCourier : UpdateTransactionInput :=
  { id := 5, customer_id := none, jersey_name := none, jersey_size := none
    price := none, quantity := none, total_payment := none
    payment_method := none, courier_id := some (some 0)
    order_status := none, transaction_date := none, notes := none }

/-- Sample shop settings fixture. -/
def exSettings : ShopSettings :=
  { shop_name := "AK Jersey", shop_address := "Jl. Stadion 9"
    shop_phone := "021-555", receipt_template := "" }

/-- Joined order row with no courier attached. -/
def exOrderNoCourier : TransactionWithRelations :=
  { id := 6, customer := cJohn, courier := none
    jersey_name := "Garuda Away", jersey_size := "M", price := 120000
    quantity := 1, total_payment := 120000, payment_method := .cash
    order_status := .pending, transaction_date := ⟨2024, 2, 3⟩
    notes := none, created_at := 21, updated_at := 21 }

/-- Joined order row with the sample courier attached. -/
def exOrderWithCourier : TransactionWithRelations :=
  { exOrderNoCourier with id := 5, courier := some kJNE }

/-- Three January-2024 transactions totaling 420 in sales, for the monthly
report scenario. -/
def txJan (id : Nat) (day : Nat) (amount : ℚ) : Transaction :=
  { id := id, customer_id := 1, jersey_name := "Garuda Home"
    jersey_size := "L", price := amount, quantity := 1
    total_payment := amount, payment_method := .cash, courier_id := none
    order_status := .pending, transaction_date := ⟨2024, 1, day⟩
    notes := none, created_at := id, updated_at := id }

/-- Store holding exactly the three January-2024 transactions. -/
def exStoreJan : Store :=
  { customers := [cJohn], couriers := []
    transactions := [txJan 11 5 100, txJan 12 15 150, txJan 13 25 170] }

/-- Transaction dated 2023-01-01, a day whose ISO week belongs to 2022. -/
def txNewYear : Transaction :=
  { txJan 14 1 100 with transaction_date := ⟨2023, 1, 1⟩ }

/-- Store holding only the 2023-01-01 transaction. -/
def exStoreNewYear : Store :=
  { customers := [cJohn], couriers := [], transactions := [txNewYear] }

/-- Expected row of the witness creation. -/
def txNew : Transaction :=
  { id := 30, customer_id := 1, jersey_name := "Garuda Third"
    jersey_size := "XL", price := 175000, quantity := 1
    total_payment := 175000, payment_method := .cod, courier_id := some 2
    order_status := .pending, transaction_date := ⟨2024, 3, 1⟩, notes := none
    created_at := 7, updated_at := 7 }

/-- Store state after the witness creation. -/
def exStoreAfter : Store :=
  { exStore with transactions := exStore.transactions ++ [txNew] }

/-- Creation input referencing a customer id that does not exist. -/
def exInputBadCustomer : CreateTransactionInput :=
  { exInput with customer_id := 99 }

/-- Creation input referencing a nonzero courier id that does not exist. -/
def exInputBadCourier : CreateTransactionInput :=
  { exInput with courier_id := some 77 }

/-- Report filter selecting the status no sample transaction has. -/
def exFilterReturned : ReportFilter :=
  { start_date := none, end_date := none, customer_id := none
    courier_id := none, jersey_name := none
    order_status := some .returned, payment_method := none }

/-- Report filter with every field absent. -/
def exFilterAll : ReportFilter :=
  { start_date := none, end_date := none, customer_id := none
    courier_id := none, jersey_name := none, order_status := none
    payment_method := none }

/-- Pagination asking for everything: `limit = -1`, no search. -/
def pUnbounded : PaginationInput :=
  { page := 1, limit := -1, search := none }

/-- Pagination asking for everything that matches a search term. -/
def pSearchJne : PaginationInput :=
  { page := 1, limit := -1, search := some "jne" }

/-- Expected weekly report row for the 2023-01-01 transaction. -/
def rowNewYear : SalesRow :=
  { period := ("2023-W01"), total_sales := 100, total_orders := 1
    total_quantity := 1 }

/-- Expected monthly report row for the January-2024 scenario. -/
def rowJan : SalesRow :=
  { period := ("2024-01"), total_sales := 420, total_orders := 3
    total_quantity := 3 }

/-- Claim C1: for every call on which `createTransaction` succeeds, the
returned transaction carries `order_status = pending` and is exactly the row
appended to the transactions table; the creation input structure carries no
`order_status` field, so no caller can supply another initial status. -/
theorem createTransaction_starts_pending (s : Store) (input : CreateTransactionInput)
    (newId now : Nat) (t : Transaction) (s2 : Store)
    (h : createTransaction s input newId now = (.ok t, s2)) :
    t.order_status = .pending ∧ s2.transactions = s.transactions ++ [t] := by
  unfold createTransaction insertTransaction at h
  repeat' split at h
  all_goals simp_all
  all_goals repeat' split at h
  all_goals try simp_all
  all_goals (obtain ⟨h1, h2⟩ := h; subst h1; subst h2)
  all_goals try simp_all
  all_goals (rename_i heq; split at heq)
  all_goals try simp_all
  all_goals (subst heq; rfl)

/-- Witness for C1: a concrete successful creation starting at `pending`. -/
theorem createTransaction_starts_pending_witness :
    createTransaction exStore exInput 30 7 = (.ok txNew, exStoreAfter) ∧
    txNew.order_status = .pending := by
  have h : createTransaction exStore exInput 30 7 = (.ok txNew, exStoreAfter) := by
    rfl
  exact ⟨h, (createTransaction_starts_pending exStore exInput 30 7 txNew
    exStoreAfter h).1⟩

/-- Claim C2 (amended): `createTransaction` with a customer id that does not
resolve fails `NotFound: Customer` with the store unchanged, and with a
non-null, nonzero courier id that does not resolve fails `NotFound: Courier`
with the store unchanged; a courier id of `0` is excluded because the
handler's truthy test skips the courier check for it. -/
theorem createTransaction_notFound_guards (s : Store) (input : CreateTransactionInput)
    (newId now : Nat) :
    (s.customers.find? (fun c => c.id == input.customer_id) = none →
      createTransaction s input newId now =
        (.error (.notFound ("Customer") input.customer_id), s)) ∧
    (∀ cid, input.courier_id = some cid → cid ≠ 0 →
      (s.customers.find? (fun c => c.id == input.customer_id)).isSome = true →
      s.couriers.find? (fun c => c.id == cid) = none →
      createTransaction s input newId now =
        (.error (.notFound ("Courier") cid), s)) := by
  constructor
  · intro hc
    unfold createTransaction
    rw [hc]
  · intro cid hcid hne hsome hfind
    obtain ⟨cu, hcu⟩ := Option.isSome_iff_exists.mp hsome
    unfold createTransaction
    rw [hcu, hcid]
    simp [hne, hfind]

/-- Witness for C2 (amended): concrete failing creations leaving the sample
store untouched. -/
theorem createTransaction_notFound_guards_witness :
    createTransaction exStore exInputBadCustomer 30 7 =
      (.error (.notFound ("Customer") 99), exStore) ∧
    createTransaction exStore exInputBadCourier 30 7 =
      (.error (.notFound ("Courier") 77), exStore) :=
  ⟨(createTransaction_notFound_guards exStore exInputBadCustomer 30 7).1
      (by decide),
    (createTransaction_notFound_guards exStore exInputBadCourier 30 7).2 77
      rfl (by decide) (by decide) (by decide)⟩

/-- Counterexample for C2 as stated: with the non-null courier id `0` that
resolves to no courier row, creation does not fail with a `NotFound` error —
the handler skips the courier check and the failure that surfaces is the
store's foreign-key violation, a different error kind. -/
theorem createTransaction_zero_courier_not_notFound :
    exInputZeroCourier.courier_id = some 0 ∧
    exStoreEmptyTx.couriers = [] ∧
    createTransaction exStoreEmptyTx exInputZeroCourier 30 7 =
      (.error (.fkViolation ("transactions.courier_id")), exStoreEmptyTx) ∧
    (∀ ent n, (Err.fkViolation ("transactions.courier_id")) ≠ Err.notFound ent n) := by
  refine ⟨rfl, rfl, rfl, ?_⟩
  intro ent n h
  exact Err.noConfusion h

/-- Claim C10: a creation input with `courier_id = 0` (non-null, falsy)
passes the handler's truthy guard without any courier lookup and reaches the
insert, where only the store's foreign-key check rejects it; the update
handler instead tests `courier_id` against undefined and null explicitly, so
the same value `0` is looked up and rejected with `NotFound: Courier`. -/
theorem zero_courier_create_vs_update (s : Store) (inC : CreateTransactionInput)
    (inU : UpdateTransactionInput) (newId now : Nat)
    (hC : inC.courier_id = some 0)
    (hcust : (s.customers.find? (fun c => c.id == inC.customer_id)).isSome = true)
    (hU : inU.courier_id = some (some 0))
    (hUcust : inU.customer_id = none)
    (htx : (s.transactions.find? (fun t => t.id == inU.id)).isSome = true)
    (hno0 : s.couriers.find? (fun c => c.id == 0) = none) :
    (createTransaction s inC newId now).1 =
      .error (.fkViolation ("transactions.courier_id")) ∧
    (updateTransaction s inU now).1 = .error (.notFound ("Courier") 0) := by
  constructor
  · obtain ⟨cu, hcu⟩ := Option.isSome_iff_exists.mp hcust
    unfold createTransaction insertTransaction
    rw [hcu, hC]
    simp [hcu, hno0]
  · obtain ⟨t0, ht0⟩ := Option.isSome_iff_exists.mp htx
    unfold updateTransaction
    rw [ht0, hUcust, hU]
    simp [hno0]

/-- Witness for C10 at the sample store. -/
theorem zero_courier_create_vs_update_witness :
    (createTransaction exStore exInputZeroCourier 30 7).1 =
      .error (.fkViolation ("transactions.courier_id")) ∧
    (updateTransaction exStore exUpdZeroCourier 8).1 =
      .error (.notFound ("Courier") 0) :=
  zero_courier_create_vs_update exStore exInputZeroCourier exUpdZeroCourier 30 7
    rfl (by decide) rfl rfl (by decide) (by decide)

/-- Helper: after the status-update map, the row found for the id is an
original row with only `order_status` and `updated_at` replaced. -/
theorem find?_status_update (id : Nat) (st : OrderStatus) (now : Nat)
    (l : List Transaction) (h : ∃ t ∈ l, t.id = id) :
    ∃ t0, t0 ∈ l ∧ t0.id = id ∧
      (l.map (fun x =>
          if x.id == id then { x with order_status := st, updated_at := now }
          else x)).find? (fun x => x.id == id) =
        some { t0 with order_status := st, updated_at := now } := by
  induction l with
  | nil => simp at h
  | cons a tl ih =>
    by_cases ha : a.id = id
    · refine ⟨a, List.mem_cons_self a tl, ha, ?_⟩
      rw [List.map_cons, List.find?_cons_of_pos]
      · simp [ha]
      · simp [ha]
    · obtain ⟨t, htmem, htid⟩ := h
      have htl : t ∈ tl := by
        rcases List.mem_cons.mp htmem with h1 | h1
        · subst h1; exact absurd htid ha
        · exact h1
      obtain ⟨t0, ht0, ht0id, hfind⟩ := ih ⟨t, htl, htid⟩
      refine ⟨t0, List.mem_cons_of_mem a ht0, ht0id, ?_⟩
      rw [List.map_cons, List.find?_cons_of_neg]
      · exact hfind
      · simp [ha]

/-- Claim C4: on a well-formed store, `updateOrderStatus` succeeds for every
existing transaction id and every target status, and the returned row
carries exactly that status — no transition graph restricts which statuses
are reachable from the current one. -/
theorem updateOrderStatus_any_status (s : Store) (id : Nat) (st : OrderStatus)
    (now : Nat) (hwf : storeWF s) (h : ∃ t ∈ s.transactions, t.id = id) :
    ∃ tw s2, updateOrderStatus s id st now = (.ok tw, s2) ∧
      tw.order_status = st := by
  obtain ⟨t0, ht0, ht0id, hfind⟩ := find?_status_update id st now s.transactions h
  have hne : (s.transactions.filter (fun t => t.id == id)).isEmpty = false := by
    obtain ⟨t, htm, htid⟩ := h
    have hmem : t ∈ s.transactions.filter (fun t => t.id == id) :=
      List.mem_filter.mpr ⟨htm, by simp [htid]⟩
    rcases hfe : s.transactions.filter (fun t => t.id == id) with _ | ⟨b, bs⟩
    · rw [hfe] at hmem; simp at hmem
    · rw [hfe]; rfl
  obtain ⟨cu, hcumem, hcuid⟩ := hwf.1 t0 ht0
  have hcs : (s.customers.find? (fun c => c.id == t0.customer_id)).isSome := by
    rw [List.find?_isSome]
    exact ⟨cu, hcumem, by simp [hcuid]⟩
  obtain ⟨cu2, hcu2⟩ := Option.isSome_iff_exists.mp hcs
  have hget : ∃ tw,
      getOrderById
        { s with transactions := s.transactions.map (fun x =>
            if x.id == id then { x with order_status := st, updated_at := now }
            else x) } id = some tw ∧ tw.order_status = st := by
    simp only [getOrderById, joinRelations, hfind, Option.bind, hcu2]
    exact ⟨_, rfl, rfl⟩
  obtain ⟨tw, hget, hst⟩ := hget
  refine ⟨tw,
    { s with transactions := s.transactions.map (fun x =>
        if x.id == id then { x with order_status := st, updated_at := now }
        else x) }, ?_, hst⟩
  unfold updateOrderStatus
  simp only [hne, Bool.false_eq_true, if_false]
  rw [hget]

/-- Witness for C4: the sample completed order set back to `pending`. -/
theorem updateOrderStatus_any_status_witness :
    txBase.order_status = .completed ∧
    ∃ tw s2, updateOrderStatus exStore 5 .pending 9 = (.ok tw, s2) ∧
      tw.order_status = .pending :=
  ⟨rfl, updateOrderStatus_any_status exStore 5 .pending 9 (by decide)
    ⟨txBase, by simp [exStore], rfl⟩⟩

/-- Claim C3: on a well-formed store, deleting a courier or customer that at
least one transaction references always fails with the has-dependents
`Conflict` and leaves the store (hence the row) untouched, and a delete that
returns success can only have happened when the id resolved and no
transaction referenced it.  The customer side is settled against the
spec-modelled `deleteCustomer`. -/
theorem delete_blocked_by_references (s : Store) (id : Nat) (hwf : storeWF s) :
    ((∃ t ∈ s.transactions, t.courier_id = some id) →
      deleteCourier s id =
        (.error
          (.conflict ("Cannot delete courier with associated transactions")), s) ∧
        ∃ c ∈ s.couriers, c.id = id) ∧
    ((∃ t ∈ s.transactions, t.customer_id = id) →
      deleteCustomer s id =
        (.error
          (.conflict ("Cannot delete customer with existing transactions")), s) ∧
        ∃ c ∈ s.customers, c.id = id) ∧
    (∀ r s2, deleteCourier s id = (.ok r, s2) →
      (∃ c ∈ s.couriers, c.id = id) ∧
        ∀ t ∈ s.transactions, t.courier_id ≠ some id) ∧
    (∀ r s2, deleteCustomer s id = (.ok r, s2) →
      (∃ c ∈ s.customers, c.id = id) ∧
        ∀ t ∈ s.transactions, t.customer_id ≠ id) := by
  refine ⟨?_, ?_, ?_, ?_⟩
  · rintro ⟨t, htm, htc⟩
    obtain ⟨c0, hc0m, hc0id⟩ := hwf.2 t htm id htc
    have hcs : (s.couriers.find? (fun c => c.id == id)).isSome := by
      rw [List.find?_isSome]
      exact ⟨c0, hc0m, by simp [hc0id]⟩
    obtain ⟨c1, hc1⟩ := Option.isSome_iff_exists.mp hcs
    have hlen : 0 < (s.transactions.filter (fun t => t.courier_id == some id)).length := by
      have hmem : t ∈ s.transactions.filter (fun t => t.courier_id == some id) :=
        List.mem_filter.mpr ⟨htm, by simp [htc]⟩
      exact List.length_pos.mpr (List.ne_nil_of_mem hmem)
    refine ⟨?_, c1, List.mem_of_find?_eq_some hc1, ?_⟩
    · unfold deleteCourier
      rw [hc1]
      simp [hlen]
    · have := List.find?_some hc1
      simpa using this
  · rintro ⟨t, htm, htc⟩
    obtain ⟨c0, hc0m, hc0id⟩ := hwf.1 t htm
    have hcs : (s.customers.find? (fun c => c.id == id)).isSome := by
      rw [List.find?_isSome]
      exact ⟨c0, hc0m, by simp [hc0id, htc]⟩
    obtain ⟨c1, hc1⟩ := Option.isSome_iff_exists.mp hcs
    have hlen : 0 < (s.transactions.filter (fun t => t.customer_id == id)).length := by
      have hmem : t ∈ s.transactions.filter (fun t => t.customer_id == id) :=
        List.mem_filter.mpr ⟨htm, by simp [htc]⟩
      exact List.length_pos.mpr (List.ne_nil_of_mem hmem)
    refine ⟨?_, c1, List.mem_of_find?_eq_some hc1, ?_⟩
    · unfold deleteCustomer
      rw [hc1]
      simp [hlen]
    · have := List.find?_some hc1
      simpa using this
  · intro r s2 hdel
    unfold deleteCourier at hdel
    rcases hc : s.couriers.find? (fun c => c.id == id) with _ | c1
    · rw [hc] at hdel; simp at hdel
    · rw [hc] at hdel
      by_cases hlen :
          0 < (s.transactions.filter (fun t => t.courier_id == some id)).length
      · simp [hlen] at hdel
      · refine ⟨⟨c1, List.mem_of_find?_eq_some hc,
          by simpa using List.find?_some hc⟩, ?_⟩
        intro t htm hts
        have hmem : t ∈ s.transactions.filter (fun t => t.courier_id == some id) :=
          List.mem_filter.mpr ⟨htm, by simp [hts]⟩
        exact hlen (List.length_pos.mpr (List.ne_nil_of_mem hmem))
  · intro r s2 hdel
    unfold deleteCustomer at hdel
    rcases hc : s.customers.find? (fun c => c.id == id) with _ | c1
    · rw [hc] at hdel; simp at hdel
    · rw [hc] at hdel
      by_cases hlen :
          0 < (s.transactions.filter (fun t => t.customer_id == id)).length
      · simp [hlen] at hdel
      · refine ⟨⟨c1, List.mem_of_find?_eq_some hc,
          by simpa using List.find?_some hc⟩, ?_⟩
        intro t htm hts
        have hmem : t ∈ s.transactions.filter (fun t => t.customer_id == id) :=
          List.mem_filter.mpr ⟨htm, by simp [hts]⟩
        exact hlen (List.length_pos.mpr (List.ne_nil_of_mem hmem))

/-- Witness for C3: both deletes rejected on the sample store, which has a
transaction referencing customer 1 and courier 2. -/
theorem delete_blocked_by_references_witness :
    deleteCourier exStore 2 =
      (.error
        (.conflict ("Cannot delete courier with associated transactions")), exStore) ∧
    deleteCustomer exStore 1 =
      (.error
        (.conflict ("Cannot delete customer with existing transactions")), exStore) :=
  ⟨((delete_blocked_by_references exStore 2 (by decide)).1
      ⟨txBase, by simp [exStore], rfl⟩).1,
    ((delete_blocked_by_references exStore 1 (by decide)).2.1
      ⟨txBase, by simp [exStore], rfl⟩).1⟩

/-- Claim C5: `getOrderStatusCounts` returns one counter per known status —
each equal to the number of transactions with that status, hence `0` rather
than omitted when no row has it — and a `total` equal to the sum of the four
counters, for any store contents including an empty transactions table. -/
theorem statusCounts_shape (s : Store) :
    (getOrderStatusCounts s).pending = statusCount s.transactions .pending ∧
    (getOrderStatusCounts s).in_process = statusCount s.transactions .in_process ∧
    (getOrderStatusCounts s).completed = statusCount s.transactions .completed ∧
    (getOrderStatusCounts s).returned = statusCount s.transactions .returned ∧
    (getOrderStatusCounts s).total =
      (getOrderStatusCounts s).pending + (getOrderStatusCounts s).in_process +
        (getOrderStatusCounts s).completed + (getOrderStatusCounts s).returned := by
  by_cases hp : statusCount s.transactions .pending = 0 <;>
  by_cases hi : statusCount s.transactions .in_process = 0 <;>
  by_cases hc : statusCount s.transactions .completed = 0 <;>
  by_cases hr : statusCount s.transactions .returned = 0 <;>
  simp [getOrderStatusCounts, statusGroups, hp, hi, hc, hr,
    List.filterMap_cons, List.filterMap_nil, List.foldl_cons, List.foldl_nil]

/-- Claim C6: `getReportStats` never divides by zero — a filter matching no
transaction yields the all-zero record, and whenever at least one order
matches the average equals total sales over total orders (stated both
multiplicatively, which also covers the empty case, and as the division). -/
theorem reportStats_average_safe (s : Store) (f : ReportFilter) :
    ((getReportStats s f).total_orders = 0 →
      getReportStats s f =
        { total_sales := 0, total_orders := 0, total_quantity := 0,
          average_order_value := 0 }) ∧
    ((getReportStats s f).total_orders : ℚ) *
        (getReportStats s f).average_order_value =
      (getReportStats s f).total_sales ∧
    (0 < (getReportStats s f).total_orders →
      (getReportStats s f).average_order_value =
        (getReportStats s f).total_sales / (getReportStats s f).total_orders) := by
  refine ⟨?_, ?_, ?_⟩
  · intro h0
    simp [getReportStats] at h0
    have hm : s.transactions.filter (matchesFilter f) = [] := by
      rw [List.filter_eq_nil_iff]
      intro a ha
      simp [h0 a ha]
    simp [getReportStats, hm]
  · by_cases hm : s.transactions.filter (matchesFilter f) = []
    · simp [getReportStats, hm]
    · have hl : 0 < (s.transactions.filter (matchesFilter f)).length :=
        List.length_pos.mpr hm
      have hne : ((s.transactions.filter (matchesFilter f)).length : ℚ) ≠ 0 := by
        exact_mod_cast Nat.pos_iff_ne_zero.mp hl
      simp only [getReportStats, hl, if_true]
      rw [mul_comm, div_mul_cancel₀ _ hne]
  · intro hl
    simp only [getReportStats] at hl ⊢
    rw [if_pos hl]

/-- Witness for C6: the sample store has no returned order, so that filter
yields the all-zero record; the unfiltered stats divide as stated. -/
theorem reportStats_average_safe_witness :
    getReportStats exStore exFilterReturned =
      { total_sales := 0, total_orders := 0, total_quantity := 0,
        average_order_value := 0 } ∧
    0 < (getReportStats exStore exFilterAll).total_orders ∧
    (getReportStats exStore exFilterAll).average_order_value =
      (getReportStats exStore exFilterAll).total_sales /
        (getReportStats exStore exFilterAll).total_orders :=
  ⟨(reportStats_average_safe exStore exFilterReturned).1 (by decide),
    by decide,
    (reportStats_average_safe exStore exFilterAll).2.2 (by decide)⟩

/-- Insertion into a sorted prefix is a permutation of consing. -/
theorem insertLeB_perm (le : α → α → Bool) (x : α) (l : List α) :
    List.Perm (insertLeB le x l) (x :: l) := by
  induction l with
  | nil => exact List.Perm.refl _
  | cons y ys ih =>
    unfold insertLeB
    by_cases h : le x y
    · simp [h]
    · simp only [h, if_false, Bool.false_eq_true]
      exact (List.Perm.cons y ih).trans (List.Perm.swap x y ys)

/-- The insertion sort permutes its input. -/
theorem sortLeB_perm (le : α → α → Bool) (l : List α) :
    List.Perm (sortLeB le l) l := by
  induction l with
  | nil => exact List.Perm.refl _
  | cons x xs ih =>
    exact (insertLeB_perm le x (sortLeB le xs)).trans (List.Perm.cons x ih)

/-- Insertion preserves sortedness for a total, transitive boolean order. -/
theorem pairwise_insertLeB (le : α → α → Bool)
    (htot : ∀ a b, le a b = true ∨ le b a = true)
    (htrans : ∀ a b c, le a b = true → le b c = true → le a c = true)
    (x : α) :
    ∀ l : List α, l.Pairwise (fun a b => le a b = true) →
      (insertLeB le x l).Pairwise (fun a b => le a b = true) := by
  intro l
  induction l with
  | nil =>
    intro _
    simp [insertLeB]
  | cons y ys ih =>
    intro h
    rcases List.pairwise_cons.mp h with ⟨hy, hys⟩
    unfold insertLeB
    by_cases hxy : le x y = true
    · simp only [hxy, if_true]
      refine List.pairwise_cons.mpr ⟨?_, h⟩
      intro b hb
      rcases List.mem_cons.mp hb with hbe | hb2
      · subst hbe; exact hxy
      · exact htrans x y b hxy (hy b hb2)
    · have hxy2 : le x y = false := by
        revert hxy; cases le x y <;> simp
      simp only [hxy2, if_false, Bool.false_eq_true]
      refine List.pairwise_cons.mpr ⟨?_, ih hys⟩
      intro b hb
      have hb2 : b ∈ x :: ys := (insertLeB_perm le x ys).mem_iff.mp hb
      rcases List.mem_cons.mp hb2 with hbe | hb3
      · subst hbe
        rcases htot b y with h1 | h1
        · exact absurd h1 hxy
        · exact h1
      · exact hy b hb3

/-- The insertion sort sorts, for a total, transitive boolean order. -/
theorem pairwise_sortLeB (le : α → α → Bool)
    (htot : ∀ a b, le a b = true ∨ le b a = true)
    (htrans : ∀ a b c, le a b = true → le b c = true → le a c = true)
    (l : List α) :
    (sortLeB le l).Pairwise (fun a b => le a b = true) := by
  induction l with
  | nil => simp [sortLeB]
  | cons x xs ih => exact pairwise_insertLeB le htot htrans x (sortLeB le xs) ih

/-- Helper: the `-1` sentinel disables the page window. -/
theorem paginate_unbounded (p : PaginationInput) (h : p.limit = -1)
    (l : List α) : paginate p l = l := by
  simp [paginate, h]

/-- Claim C7: with `limit = -1` every list operation returns exactly the
rows matching its (possibly absent) search filter — a permutation of the
filtered table, so nothing is truncated — and the reported `total` equals
the number of rows returned.  The customer side is settled against the
spec-modelled `getCustomers`. -/
theorem limit_all_returns_matching (s : Store) (p : PaginationInput)
    (st : OrderStatus) (h : p.limit = -1) :
    (List.Perm (getCouriers s p).1 (s.couriers.filter (courierSearchPred p)) ∧
      (getCouriers s p).2 = (getCouriers s p).1.length) ∧
    (List.Perm (getCustomers s p).1 (s.customers.filter (customerSearchPred p)) ∧
      (getCustomers s p).2 = (getCustomers s p).1.length) ∧
    (List.Perm (getOrdersByStatus s st p).1 (ordersMatched s st p) ∧
      (getOrdersByStatus s st p).2 = (getOrdersByStatus s st p).1.length) := by
  refine ⟨⟨?_, ?_⟩, ⟨?_, ?_⟩, ⟨?_, ?_⟩⟩
  · rcases hs : p.search with _ | q
    · simp only [getCouriers, hs, paginate_unbounded p h]
      have hpred : s.couriers.filter (courierSearchPred p) = s.couriers := by
        rw [List.filter_eq_self]
        intro a _
        simp [courierSearchPred, hs]
      rw [hpred]
      exact sortLeB_perm _ _
    · by_cases hq : q = ""
      · simp only [getCouriers, hs, hq, paginate_unbounded p h]
        have hpred : s.couriers.filter (courierSearchPred p) = s.couriers := by
          rw [List.filter_eq_self]
          intro a _
          simp [courierSearchPred, hs, hq]
        simp only [bne_self_eq_false, Bool.false_eq_true, if_false, hpred]
        exact sortLeB_perm _ _
      · have hqb : (q != "") = true := by simp [hq]
        simp only [getCouriers, hs, hqb, if_true, paginate_unbounded p h]
        have hpred : s.couriers.filter (courierSearchPred p) =
            s.couriers.filter
              (fun c => containsCI q c.name || containsCI q c.code) := by
          apply List.filter_congr
          intro a _
          simp [courierSearchPred, hs, hqb]
        rw [hpred]
        exact sortLeB_perm _ _
  · rcases hs : p.search with _ | q
    · simp only [getCouriers, hs, paginate_unbounded p h]
      exact ((sortLeB_perm _ _).length_eq).symm ▸ rfl
    · by_cases hq : q = ""
      · simp only [getCouriers, hs, hq, bne_self_eq_false, Bool.false_eq_true,
          if_false, paginate_unbounded p h]
        exact ((sortLeB_perm _ s.couriers).length_eq).symm
      · have hqb : (q != "") = true := by simp [hq]
        simp only [getCouriers, hs, hqb, if_true, paginate_unbounded p h]
        exact ((sortLeB_perm _ _).length_eq).symm
  · simp only [getCustomers, paginate_unbounded p h]
    exact sortLeB_perm _ _
  · simp only [getCustomers, paginate_unbounded p h]
    exact ((sortLeB_perm _ _).length_eq).symm
  · simp only [getOrdersByStatus, paginate_unbounded p h]
    exact sortLeB_perm _ _
  · simp only [getOrdersByStatus, paginate_unbounded p h]
    exact ((sortLeB_perm _ _).length_eq).symm

/-- Witness for C7 on the sample store, with and without a search term. -/
theorem limit_all_returns_matching_witness :
    (getCouriers exStore pSearchJne).2 = (getCouriers exStore pSearchJne).1.length ∧
    (getCustomers exStore pUnbounded).2 = (getCustomers exStore pUnbounded).1.length ∧
    (getOrdersByStatus exStore .pending pUnbounded).2 =
      (getOrdersByStatus exStore .pending pUnbounded).1.length :=
  ⟨(limit_all_returns_matching exStore pSearchJne .pending rfl).1.2,
    (limit_all_returns_matching exStore pUnbounded .pending rfl).2.1.2,
    (limit_all_returns_matching exStore pUnbounded .pending rfl).2.2.2⟩

/-- Membership is invariant under key deduplication. -/
theorem mem_dedupKeys (k : String) (l : List String) :
    k ∈ dedupKeys l ↔ k ∈ l := by
  induction l with
  | nil => simp [dedupKeys]
  | cons a rest ih =>
    unfold dedupKeys
    by_cases ha : a ∈ dedupKeys rest
    · simp only [ha, if_true]
      rw [ih]
      constructor
      · exact fun h => List.mem_cons_of_mem a h
      · intro h
        rcases List.mem_cons.mp h with hbe | hbe
        · subst hbe; exact ih.mp ha
        · exact hbe
    · simp only [ha, if_false]
      constructor
      · intro h
        rcases List.mem_cons.mp h with hbe | hbe
        · subst hbe; exact List.mem_cons_self _ _
        · exact List.mem_cons_of_mem a (ih.mp hbe)
      · intro h
        rcases List.mem_cons.mp h with hbe | hbe
        · subst hbe; exact List.mem_cons_self _ _
        · exact List.mem_cons_of_mem a (ih.mpr hbe)

/-- Deduplicated key lists carry no duplicate. -/
theorem nodup_dedupKeys (l : List String) : (dedupKeys l).Nodup := by
  induction l with
  | nil => simp [dedupKeys]
  | cons a rest ih =>
    unfold dedupKeys
    by_cases ha : a ∈ dedupKeys rest
    · simp only [ha, if_true]
      exact ih
    · simp only [ha, if_false]
      exact List.nodup_cons.mpr ⟨ha, ih⟩

/-- Totality of the code-point order on char lists. -/
theorem charListLe_total (a : List Char) :
    ∀ b, charListLe a b = true ∨ charListLe b a = true := by
  induction a with
  | nil => intro b; left; rfl
  | cons x xs ih =>
    intro b
    cases b with
    | nil => right; rfl
    | cons y ys =>
      unfold charListLe
      by_cases h1 : x.toNat < y.toNat
      · left; simp [h1]
      · by_cases h2 : y.toNat < x.toNat
        · right; simp [h2]
        · rcases ih ys with h | h
          · left; simp [h1, h2, h]
          · right; simp [h1, h2, h]

/-- Transitivity of the code-point order on char lists. -/
theorem charListLe_trans (a : List Char) :
    ∀ b c, charListLe a b = true → charListLe b c = true →
      charListLe a c = true := by
  induction a with
  | nil => intro b c _ _; rfl
  | cons x xs ih =>
    intro b c hab hbc
    cases b with
    | nil => simp [charListLe] at hab
    | cons y ys =>
      cases c with
      | nil => simp [charListLe] at hbc
      | cons z zs =>
        unfold charListLe at hab hbc ⊢
        by_cases h1 : x.toNat < y.toNat <;>
        by_cases h2 : y.toNat < x.toNat <;>
        by_cases h3 : y.toNat < z.toNat <;>
        by_cases h4 : z.toNat < y.toNat <;>
        by_cases h5 : x.toNat < z.toNat <;>
        by_cases h6 : z.toNat < x.toNat <;>
        simp_all <;>
        first
        | omega
        | exact ih ys zs hab hbc
        | exact Or.inr (ih ys zs hab hbc)

/-- Totality of the string order used for `ORDER BY`. -/
theorem strLeB_total (a b : String) : strLeB a b = true ∨ strLeB b a = true :=
  charListLe_total a.toList b.toList

/-- Transitivity of the string order used for `ORDER BY`. -/
theorem strLeB_trans (a b c : String) :
    strLeB a b = true → strLeB b c = true → strLeB a c = true :=
  charListLe_trans a.toList b.toList c.toList

/-- Helper: projecting the period key out of built report rows recovers the
key list. -/
theorem map_period_periodRow (p : Period) (m : List Transaction)
    (ks : List String) :
    (ks.map (periodRow p m)).map (fun r => r.period) = ks := by
  induction ks with
  | nil => rfl
  | cons k rest ih => simp [periodRow, ih]

/-- Claim C8 (amended): `getSalesReportByPeriod` emits rows ordered by
period key ascending, with no two rows sharing a key, every row the exact
aggregate of the matched transactions of its key with at least one matching
transaction (no period is synthesized), and every matched transaction
represented by the row of its key.  The weekly key is the `TO_CHAR`
`YYYY-"W"WW` week-of-year label (weeks anchored at January 1), not the ISO
week label the spec names. -/
theorem salesReport_grouping (s : Store) (p : Period) (a b : SDate) :
    (getSalesReportByPeriod s p a b).Pairwise
      (fun x y => strLeB x.period y.period = true) ∧
    ((getSalesReportByPeriod s p a b).map (fun r => r.period)).Nodup ∧
    (∀ row ∈ getSalesReportByPeriod s p a b,
      row = periodRow p (periodMatched s a b) row.period ∧
        0 < row.total_orders) ∧
    (∀ t ∈ periodMatched s a b,
      ∃ row ∈ getSalesReportByPeriod s p a b,
        row.period = toCharKey p t.transaction_date) := by
  refine ⟨?_, ?_, ?_, ?_⟩
  · unfold getSalesReportByPeriod
    refine List.Pairwise.map _ ?_
      (pairwise_sortLeB strLeB (fun a b => strLeB_total a b)
        (fun a b c => strLeB_trans a b c) _)
    intro k1 k2 hk
    exact hk
  · unfold getSalesReportByPeriod
    rw [map_period_periodRow]
    exact ((sortLeB_perm strLeB _).nodup_iff).mpr (nodup_dedupKeys _)
  · intro row hrow
    unfold getSalesReportByPeriod at hrow
    obtain ⟨k, hk, hrk⟩ := List.mem_map.mp hrow
    constructor
    · rw [← hrk]
      rfl
    · have hk2 : k ∈ (periodMatched s a b).map
          (fun t => toCharKey p t.transaction_date) := by
        have hmem := (sortLeB_perm strLeB _).mem_iff.mp hk
        exact (mem_dedupKeys k _).mp hmem
      obtain ⟨t, htm, htk⟩ := List.mem_map.mp hk2
      have hmemf : t ∈ (periodMatched s a b).filter
          (fun t => toCharKey p t.transaction_date == k) :=
        List.mem_filter.mpr ⟨htm, by simp [htk]⟩
      have hpos := List.length_pos.mpr (List.ne_nil_of_mem hmemf)
      rw [← hrk]
      simpa [periodRow] using hpos
  · intro t htm
    have hk : toCharKey p t.transaction_date ∈
        sortLeB strLeB (dedupKeys ((periodMatched s a b).map
          (fun t => toCharKey p t.transaction_date))) := by
      rw [(sortLeB_perm strLeB _).mem_iff]
      exact (mem_dedupKeys _ _).mpr (List.mem_map.mpr ⟨t, htm, rfl⟩)
    exact ⟨periodRow p (periodMatched s a b) (toCharKey p t.transaction_date),
      List.mem_map.mpr ⟨_, hk, rfl⟩, rfl⟩

/-- Counterexample for C8 as stated: a transaction dated 2023-01-01 yields
the weekly period key `2023-W01` (Postgres week-of-year), whereas the ISO
week label of that date is `2022-W52` — the two labels differ. -/
theorem weekly_key_not_iso :
    getSalesReportByPeriod exStoreNewYear .weekly ⟨2023, 1, 1⟩ ⟨2023, 12, 31⟩ =
      [rowNewYear] ∧
    txNewYear.transaction_date = ⟨2023, 1, 1⟩ ∧
    isoWeekLabel ⟨2023, 1, 1⟩ = ("2022-W52") ∧
    rowNewYear.period = ("2023-W01") ∧
    ("2023-W01" : String) ≠ ("2022-W52") := by
  refine ⟨?_, rfl, rfl, rfl, by decide⟩
  have h1 : getSalesReportByPeriod exStoreNewYear .weekly
      ⟨2023, 1, 1⟩ ⟨2023, 12, 31⟩ =
      [periodRow .weekly
        (periodMatched exStoreNewYear ⟨2023, 1, 1⟩ ⟨2023, 12, 31⟩)
        ("2023-W01")] := rfl
  rw [h1]
  have hg : (periodMatched exStoreNewYear ⟨2023, 1, 1⟩ ⟨2023, 12, 31⟩).filter
      (fun t => toCharKey .weekly t.transaction_date == ("2023-W01")) =
      [txNewYear] := rfl
  unfold periodRow
  rw [hg]
  simp only [List.map_cons, List.map_nil, List.sum_cons, List.sum_nil,
    List.length_cons, List.length_nil]
  norm_num [txNewYear, txJan, rowNewYear]

/-- Witness for C8 (amended): the monthly scenario — three January-2024
transactions totaling 420 produce exactly one row, keyed `2024-01`, with
`total_sales = 420`; its order count is positive as the theorem states. -/
theorem salesReport_grouping_witness :
    getSalesReportByPeriod exStoreJan .monthly ⟨2024, 1, 1⟩ ⟨2024, 12, 31⟩ =
      [rowJan] ∧
    0 < rowJan.total_orders := by
  have h1 : getSalesReportByPeriod exStoreJan .monthly
      ⟨2024, 1, 1⟩ ⟨2024, 12, 31⟩ =
      [periodRow .monthly
        (periodMatched exStoreJan ⟨2024, 1, 1⟩ ⟨2024, 12, 31⟩)
        ("2024-01")] := rfl
  have hg : (periodMatched exStoreJan ⟨2024, 1, 1⟩ ⟨2024, 12, 31⟩).filter
      (fun t => toCharKey .monthly t.transaction_date == ("2024-01")) =
      [txJan 11 5 100, txJan 12 15 150, txJan 13 25 170] := rfl
  have h2 : getSalesReportByPeriod exStoreJan .monthly
      ⟨2024, 1, 1⟩ ⟨2024, 12, 31⟩ = [rowJan] := by
    rw [h1]
    unfold periodRow
    rw [hg]
    simp only [List.map_cons, List.map_nil, List.sum_cons, List.sum_nil,
      List.length_cons, List.length_nil]
    norm_num [txJan, rowJan]
  refine ⟨h2, ?_⟩
  exact ((salesReport_grouping exStoreJan .monthly
      ⟨2024, 1, 1⟩ ⟨2024, 12, 31⟩).2.2.1 rowJan
    (by rw [h2]; exact List.mem_singleton.mpr rfl)).2

/-- Claim C9 (amended): the courier information appears in a receipt exactly
when a courier is attached — with a courier, `formatReceiptFor58mm` renders
the line `Kurir: name (code)` and the transactions-handler template renders
`Courier: name (code)`; with no courier, the 58mm template renders the
placeholder line `Kurir: -` and the transactions-handler template renders an
empty slot, which leaves a blank line rather than omitting the line
position. -/
theorem receipt_courier_slot_behavior (o : TransactionWithRelations)
    (st : ShopSettings) :
    courierSlot58 o.courier ∈ formatReceiptLines58mm o st ∧
    (o.courier = none → courierSlot58 o.courier = ("Kurir: -")) ∧
    (∀ c, o.courier = some c →
      courierSlot58 o.courier =
        ("Kurir: ") ++ c.name ++ (" (") ++ c.code ++ (")")) ∧
    courierSlotTx o.courier ∈ txReceiptLines o st ∧
    (o.courier = none → courierSlotTx o.courier = "") ∧
    (∀ c, o.courier = some c →
      courierSlotTx o.courier =
        ("Courier: ") ++ c.name ++ (" (") ++ c.code ++ (")")) := by
  refine ⟨?_, ?_, ?_, ?_, ?_, ?_⟩
  · simp [formatReceiptLines58mm]
  · intro h; rw [h]; rfl
  · intro c h; rw [h]; rfl
  · simp [txReceiptLines]
  · intro h; rw [h]; rfl
  · intro c h; rw [h]; rfl

/-- Counterexample for C9 as stated: for a concrete transaction with no
courier, the 58mm receipt still contains a courier line — the placeholder
`Kurir: -` — and the transactions-handler template keeps the slot as an
empty line; the line is not omitted entirely. -/
theorem receipt_no_courier_placeholder :
    exOrderNoCourier.courier = none ∧
    ("Kurir: -") ∈ formatReceiptLines58mm exOrderNoCourier exSettings ∧
    courierSlotTx exOrderNoCourier.courier = ("") ∧
    ("") ∈ txReceiptLines exOrderNoCourier exSettings := by
  refine ⟨rfl, ?_, rfl, ?_⟩
  · simp [formatReceiptLines58mm, courierSlot58, exOrderNoCourier]
  · simp [txReceiptLines, courierSlotTx, exOrderNoCourier]

/-- Witness for C9 (amended), at a concrete order with the sample courier
attached and a concrete order without one. -/
theorem receipt_courier_slot_behavior_witness :
    courierSlot58 exOrderWithCourier.courier ∈
      formatReceiptLines58mm exOrderWithCourier exSettings ∧
    courierSlot58 exOrderWithCourier.courier = ("Kurir: JNE (JNE)") ∧
    courierSlotTx exOrderNoCourier.courier = ("") := by
  refine ⟨(receipt_courier_slot_behavior exOrderWithCourier exSettings).1, ?_,
    (receipt_courier_slot_behavior exOrderNoCourier exSettings).2.2.2.2.1 rfl⟩
  have h := (receipt_courier_slot_behavior exOrderWithCourier exSettings).2.2.1
    kJNE rfl
  rw [h]
  rfl
